import Mathlib

/-!
Shallow embedding of the `classifier_router` Python package
(micro-classifier repository), together with theorems settling the
specification claims about it.

The embedding covers:
* the detection-result data model (`src/classifier_router/core/detector/base.py`),
* the two concrete detector strategies
  (`src/classifier_router/core/detector/lease_header.py`,
   `src/classifier_router/detector/jurisdiction.py`),
* the detector factory / registry (`src/classifier_router/factory.py`,
  `src/classifier_router/config/config.py`),
* the classification router (`src/classifier_router/router.py`,
  `src/classifier_router/core/router.py`),
* the classification-result output mapping (`src/classifier_router/models.py`),
* the message processor length check and output building
  (`src/classifier_router/message_processor.py`).

Python strings that may be `None` are modelled as `Option String`; Python
dictionaries (insertion ordered, assignment overwrites in place) are
modelled as association lists with an overwriting insert; Python sets are
modelled as duplicate-free lists where only membership matters; a Python
function that may raise is modelled as returning `Except String`, the
string being `str(e)` of the raised exception.
-/

set_option maxRecDepth 10000

namespace ClassifierRouter

/-- ASCII approximation of the whitespace class used by Python's
`str.strip()` and by the regex class `\s`. -/
def pyIsSpace (c : Char) : Bool :=
  c = ' ' || c = '\t' || c = '\n' || c = '\r' || c = '\x0b' || c = '\x0c'

/-- Word characters for the regex boundary assertion `\b`
(`[A-Za-z0-9_]`, ASCII fragment of Python's default behaviour). -/
def isWordChar (c : Char) : Bool :=
  c.isAlphanum || c = '_'

/-- Python truthiness of an optional text argument: `None` and the empty
string are falsy (`if not text: ...`). -/
def pyFalsyText : Option String → Bool
  | none => true
  | some s => s = ""

/-- The guard `not text or not text.strip()` used by the router:
true exactly when the text is `None`, empty, or whitespace-only. -/
def pyBlank : Option String → Bool
  | none => true
  | some s => s.toList.all pyIsSpace

/-- A compiled regex of the restricted shape used by every detector in the
source: `\b W1 \s+ W2 \s+ ... \s+ Wk \b` over literal words `Wi`, compiled
with or without `re.IGNORECASE`. -/
structure RePattern where
  words : List String
  ignoreCase : Bool
deriving DecidableEq, Repr

/-- Character comparison, case-folded when the pattern is compiled with
`re.IGNORECASE`. -/
def charMatches (ci : Bool) (a b : Char) : Bool :=
  if ci then a.toLower = b.toLower else a = b

/-- Match one literal word at the head of the text, returning the rest of
the text on success. -/
def matchWord (ci : Bool) : List Char → List Char → Option (List Char)
  | [], l => some l
  | _ :: _, [] => none
  | a :: ws, c :: l => if charMatches ci a c then matchWord ci ws l else none

/-- Consume `\s+`: at least one whitespace character, then the maximal run
of further whitespace.  Maximal munch is complete here because in every
pattern of the source the following literal word starts with a
non-whitespace character. -/
def dropSpaces1 : List Char → Option (List Char)
  | [] => none
  | c :: l => if pyIsSpace c then some (l.dropWhile pyIsSpace) else none

/-- Match the word list of a pattern (words separated by `\s+`) at the
head of the text. -/
def matchWords (ci : Bool) : List String → List Char → Option (List Char)
  | [], l => some l
  | [w], l => matchWord ci w.toList l
  | w :: w2 :: ws, l =>
    match matchWord ci w.toList l with
    | none => none
    | some rest =>
      match dropSpaces1 rest with
      | none => none
      | some rest2 => matchWords ci (w2 :: ws) rest2

/-- The trailing `\b`: the next character, if any, is not a word
character. -/
def boundaryAfter : List Char → Bool
  | [] => true
  | c :: _ => !isWordChar c

/-- Whether the pattern matches exactly at the current position, given the
character immediately before that position (`none` at the start of the
text).  The leading `\b` holds when the previous character is absent or is
not a word character (every pattern starts with a word character). -/
def matchesAt (p : RePattern) (prev : Option Char) (l : List Char) : Bool :=
  (match prev with
   | none => true
   | some c => !isWordChar c) &&
  (match matchWords p.ignoreCase p.words l with
   | none => false
   | some rest => boundaryAfter rest)

/-- `re.search` over the suffix `l`, where `prev` is the character just
before it: tries every position, including the end of the text. -/
def reSearchAux (p : RePattern) : Option Char → List Char → Bool
  | prev, [] => matchesAt p prev []
  | prev, c :: l => matchesAt p prev (c :: l) || reSearchAux p (some c) l

/-- `pattern.search(text)` returning whether any match exists. -/
def reSearch (p : RePattern) (l : List Char) : Bool :=
  reSearchAux p none l

/-- `DetectionResult` from `core/detector/base.py`: outcome of one
detector invocation. -/
structure DetectionResult where
  detected : Bool
  value : Option String := none
deriving DecidableEq, Repr

/-- The compiled patterns of `LeaseHeaderDetector.__init__`. -/
def leasePatterns : List RePattern :=
  [⟨["LEASE"], true⟩,
   ⟨["RENTAL", "AGREEMENT"], true⟩,
   ⟨["TENANCY", "AGREEMENT"], true⟩,
   ⟨["LEASE", "AGREEMENT"], true⟩]

/-- `LeaseHeaderDetector.detect`: empty/absent text short-circuits to a
negative result; otherwise the first 500 characters are searched with each
pattern in order, the first match producing `detected=True, value="lease"`.
The ordered first-match loop of the source returns the same fixed result
for every pattern, so it is rendered with `List.any`. -/
def leaseDetect (text : Option String) : DetectionResult :=
  if pyFalsyText text then ⟨false, none⟩
  else
    let s := text.getD ""
    let header := s.toList.take 500
    if leasePatterns.any (fun p => reSearch p header) then ⟨true, some "lease"⟩
    else ⟨false, none⟩

/-- The `"CA"` pattern list of `JurisdictionDetector.__init__`. -/
def caPatterns : List RePattern :=
  [⟨["State", "of", "California"], true⟩,
   ⟨["California"], true⟩,
   ⟨["CA"], false⟩]

/-- The `"MA"` pattern list of `JurisdictionDetector.__init__`. -/
def maPatterns : List RePattern :=
  [⟨["State", "of", "Massachusetts"], true⟩,
   ⟨["Commonwealth", "of", "Massachusetts"], true⟩,
   ⟨["Massachusetts"], true⟩,
   ⟨["MA"], false⟩]

/-- The `"NY"` pattern list of `JurisdictionDetector.__init__`. -/
def nyPatterns : List RePattern :=
  [⟨["State", "of", "New", "York"], true⟩,
   ⟨["New", "York"], true⟩,
   ⟨["NY"], false⟩]

/-- The jurisdiction pattern dictionary, in its Python insertion
(declaration) order: CA, then MA, then NY. -/
def jurisdictionPatterns : List (String × List RePattern) :=
  [("CA", caPatterns), ("MA", maPatterns), ("NY", nyPatterns)]

/-- Whether any pattern of one jurisdiction category matches the text. -/
def categoryMatches (pats : List RePattern) (l : List Char) : Bool :=
  pats.any (fun p => reSearch p l)

/-- `JurisdictionDetector.detect`: empty/absent text short-circuits to a
negative result; otherwise the categories are scanned in declaration
order and the first category with any matching pattern wins. -/
def jurisdictionDetect (text : Option String) : DetectionResult :=
  if pyFalsyText text then ⟨false, none⟩
  else
    let s := text.getD ""
    match jurisdictionPatterns.find? (fun cp => categoryMatches cp.2 s.toList) with
    | some cp => ⟨true, some cp.1⟩
    | none => ⟨false, none⟩

/-- Python dictionary assignment `d[k] = v` on an insertion-ordered
association list: an existing key keeps its position and gets the new
value, a new key is appended. -/
def dictInsert {α : Type} : List (String × α) → String → α → List (String × α)
  | [], k, v => [(k, v)]
  | (k', v') :: rest, k, v =>
    if k' = k then (k', v) :: rest else (k', v') :: dictInsert rest k v

/-- Python dictionary lookup `d.get(k)`. -/
def dictLookup {α : Type} : List (String × α) → String → Option α
  | [], _ => none
  | (k', v) :: rest, k => if k' = k then some v else dictLookup rest k

/-- Python set insertion `s.add(k)` on a duplicate-free list model. -/
def setInsert (l : List String) (k : String) : List String :=
  if k ∈ l then l else l ++ [k]

/-- `ClassificationResult` from `models.py` / `router.py`: the aggregate
outcome of one classification run. -/
structure ClassificationResult where
  text_length : Nat
  detector_results : List (String × DetectionResult)
  successful_detectors : List String
  failed_detectors : List (String × String)
deriving DecidableEq, Repr

/-- `detected and value` truthiness on the optional value of a
`DetectionResult`: `None` and the empty string are falsy. -/
def truthyValue : Option String → Bool
  | none => false
  | some v => v ≠ ""

/-- `ClassificationResult.get_output_by_type` inner decision for one
detector name: the detector's value when the name is in
`successful_detectors` and its stored result has `detected` true and a
truthy value, otherwise `None`. -/
def fieldValue (cr : ClassificationResult) (name : String) : Option String :=
  if name ∈ cr.successful_detectors then
    match dictLookup cr.detector_results name with
    | some r => if r.detected && truthyValue r.value then r.value else none
    | none => none
  else none

/-- `ClassificationResult.get_output_by_type` from `models.py`: iterates
the `detector_configs` mapping in order and assigns
`output_mapping[output_type]` for each entry (dictionary assignment, so a
later entry with the same output type overwrites an earlier one). -/
def getOutputByType (cr : ClassificationResult)
    (detectorConfigs : List (String × String)) : List (String × Option String) :=
  detectorConfigs.foldl (fun acc p => dictInsert acc p.2 (fieldValue cr p.1)) []

/-- Mutable state of the detector loop in
`ClassifierRouter.classify_with_detectors`. -/
structure ClassifyState where
  results : List (String × DetectionResult)
  succ : List String
  failed : List (String × String)

/-- The detector loop of `classify_with_detectors`: for each requested
name, `run` models `factory.create_detector(name)` followed by
`detector.detect(text)` (already specialised to the fixed input text);
a normal return is stored in `detector_results` and `successful_detectors`,
a raised exception is caught and its message stored in
`failed_detectors`. -/
def classifyLoop (run : String → Except String DetectionResult) :
    List String → ClassifyState → ClassifyState
  | [], st => st
  | n :: rest, st =>
    classifyLoop run rest
      (match run n with
       | .ok r => ⟨dictInsert st.results n r, setInsert st.succ n, st.failed⟩
       | .error m => ⟨st.results, st.succ, dictInsert st.failed n m⟩)

/-- `ClassifierRouter.classify_with_detectors` from `router.py` /
`core/router.py`, parametric in the per-detector behaviour
`run name text`: validates the text and the requested name list, then runs
the detector loop and aggregates a `ClassificationResult`. -/
def classify_with_detectors (run : String → String → Except String DetectionResult)
    (text : Option String) (detectorNames : List String) :
    Except String ClassificationResult :=
  if pyBlank text then .error "Input text cannot be empty or None"
  else if detectorNames = [] then .error "At least one detector name must be specified"
  else
    let s := text.getD ""
    let st := classifyLoop (fun n => run n s) detectorNames ⟨[], [], []⟩
    .ok ⟨s.length, st.results, st.succ, st.failed⟩

/-- `DetectorConfig` from `config/config.py`: one detector descriptor. -/
structure DetectorConfig where
  name : String
  class_path : String
  description : String
  output_type : String
deriving DecidableEq, Repr

/-- A resolved detector class: instances are stateless, so a class is
characterised by the fixed `name` property of its instances and by its
`detect` method. -/
structure DetectorClass where
  instName : String
  detect : Option String → DetectionResult

/-- The import environment: what
`DetectorFactory._import_detector_class(class_path)` yields for each class
path — either a resolved `DetectorStrategy` subclass or a raised error
(unresolvable path, missing attribute, or a class that is not a
`DetectorStrategy` subclass). -/
def ImportEnv : Type := String → Except String DetectorClass

/-- `DetectorFactory._load_detector_classes`: iterates the configured
descriptors and fills the `name → class` dictionary, aborting with
`ConfigError` on the first descriptor whose class path fails to import.
No uniqueness check is made on names: a duplicated name overwrites the
earlier entry in the dictionary. -/
def loadDetectorClasses (env : ImportEnv) :
    List DetectorConfig → List (String × DetectorClass) →
    Except String (List (String × DetectorClass))
  | [], acc => .ok acc
  | c :: rest, acc =>
    match env c.class_path with
    | .error e =>
      .error ("Failed to import detector " ++ c.name ++ " from " ++ c.class_path ++ ": " ++ e)
    | .ok cls => loadDetectorClasses env rest (dictInsert acc c.name cls)

/-- `DetectorFactory.create_detector`: unknown names raise `ConfigError`
listing the known names; otherwise the stored class is instantiated (the
instance is stateless, so it is the class itself). -/
def create_detector (classes : List (String × DetectorClass)) (detectorName : String) :
    Except String DetectorClass :=
  match dictLookup classes detectorName with
  | some cls => .ok cls
  | none => .error ("Unknown detector " ++ detectorName)

/-- The `LeaseHeaderDetector` class: its instances report
`name == "lease_header_detector"` regardless of the descriptor that
referenced the class. -/
def leaseHeaderClass : DetectorClass :=
  ⟨"lease_header_detector", leaseDetect⟩

/-- The `JurisdictionDetector` class: its instances report
`name == "jurisdiction_detector"`. -/
def jurisdictionClass : DetectorClass :=
  ⟨"jurisdiction_detector", jurisdictionDetect⟩

/-- `TextExtractionMessage` from `schemas.py`: the decoded inbound
envelope. -/
structure TextExtractionMessage where
  docId : String
  text : String
deriving DecidableEq, Repr

/-- `LLMRequestMessage` from `schemas.py`: the outbound envelope. -/
structure LLMRequestMessage where
  docId : String
  text : String
  docType : Option String
  jurisdictionCode : Option String
deriving DecidableEq, Repr

/-- The distinct `ClassifierError` causes of
`MessageProcessor.process_message` after envelope decoding. -/
inductive ProcessError where
  | textTooLong (len maxLen : Nat)
  | classifyFailed (msg : String)
deriving DecidableEq, Repr

/-- `MessageProcessor.process_message` from `message_processor.py`, after
envelope decoding, parametric in the router behaviour `classify` and in
the cached output-type mapping: the text-length guard
`len(text) > max_text_length` raises `ClassifierError`; otherwise the
router classifies the text and `_create_output_message` maps the outcome
through `get_output_by_type`, reading the `docType` and `jurisdiction`
fields (`dict.get`, `None` when absent). -/
def process_message (classify : String → Except String ClassificationResult)
    (outputTypeMapping : List (String × String)) (maxTextLength : Nat)
    (input : TextExtractionMessage) : Except ProcessError LLMRequestMessage :=
  if input.text.length > maxTextLength then
    .error (.textTooLong input.text.length maxTextLength)
  else
    match classify input.text with
    | .error m => .error (.classifyFailed m)
    | .ok cr =>
      let outputByType := getOutputByType cr outputTypeMapping
      .ok ⟨input.docId, input.text,
           (dictLookup outputByType "docType").join,
           (dictLookup outputByType "jurisdiction").join⟩

theorem dictLookup_dictInsert {α : Type} (d : List (String × α)) (k k' : String) (v : α) :
    dictLookup (dictInsert d k v) k' = if k = k' then some v else dictLookup d k' := by
  induction d with
  | nil => simp [dictInsert, dictLookup]
  | cons p rest ih =>
    obtain ⟨k0, v0⟩ := p
    by_cases h0 : k0 = k
    · subst h0
      by_cases h1 : k0 = k' <;> simp [dictInsert, dictLookup, h1]
    · by_cases h1 : k0 = k' <;>
        by_cases h2 : k = k' <;>
          simp_all [dictInsert, dictLookup]

theorem mem_setInsert (l : List String) (k k' : String) :
    k' ∈ setInsert l k ↔ k' ∈ l ∨ k' = k := by
  by_cases h : k ∈ l
  · simp only [setInsert, if_pos h]
    constructor
    · exact fun hk => Or.inl hk
    · rintro (hk | rfl)
      · exact hk
      · exact h
  · simp [setInsert, if_neg h]

theorem classifyLoop_results (run : String → Except String DetectionResult)
    (names : List String) : ∀ (st : ClassifyState) (k : String),
    dictLookup (classifyLoop run names st).results k =
      (match run k with
       | .ok r => if k ∈ names then some r else dictLookup st.results k
       | .error _ => dictLookup st.results k) := by
  induction names with
  | nil =>
    intro st k
    cases hk : run k <;> simp [classifyLoop]
  | cons n rest ih =>
    intro st k
    cases hn : run n with
    | ok r0 =>
      have h2 := ih ⟨dictInsert st.results n r0, setInsert st.succ n, st.failed⟩ k
      simp only [classifyLoop, hn]
      rw [h2]
      cases hk : run k with
      | ok r =>
        by_cases hkr : k ∈ rest
        · simp [hkr]
        · by_cases hkn : k = n
          · subst hkn
            rw [hn] at hk
            injection hk with hr
            subst hr
            simp [hkr, dictLookup_dictInsert]
          · simp [hkr, hkn, dictLookup_dictInsert, Ne.symm hkn]
      | error m =>
        by_cases hkn : k = n
        · subst hkn; rw [hk] at hn; cases hn
        · simp [dictLookup_dictInsert, Ne.symm hkn]
    | error m0 =>
      have h2 := ih ⟨st.results, st.succ, dictInsert st.failed n m0⟩ k
      simp only [classifyLoop, hn]
      rw [h2]
      cases hk : run k with
      | ok r =>
        by_cases hkn : k = n
        · subst hkn; rw [hk] at hn; cases hn
        · simp [hkn]
      | error m => rfl

theorem classifyLoop_succ (run : String → Except String DetectionResult)
    (names : List String) : ∀ (st : ClassifyState) (k : String),
    (k ∈ (classifyLoop run names st).succ ↔
      k ∈ st.succ ∨ (k ∈ names ∧ ∃ r, run k = .ok r)) := by
  induction names with
  | nil => intro st k; simp [classifyLoop]
  | cons n rest ih =>
    intro st k
    cases hn : run n with
    | ok r0 =>
      have h2 := ih ⟨dictInsert st.results n r0, setInsert st.succ n, st.failed⟩ k
      simp only [classifyLoop, hn]
      rw [h2]
      simp only [mem_setInsert, List.mem_cons]
      constructor
      · rintro ((hk | rfl) | ⟨hk1, hk2⟩)
        · exact Or.inl hk
        · exact Or.inr ⟨Or.inl rfl, r0, hn⟩
        · exact Or.inr ⟨Or.inr hk1, hk2⟩
      · rintro (hk | ⟨(rfl | hk1), hk2⟩)
        · exact Or.inl (Or.inl hk)
        · exact Or.inl (Or.inr rfl)
        · exact Or.inr ⟨hk1, hk2⟩
    | error m0 =>
      have h2 := ih ⟨st.results, st.succ, dictInsert st.failed n m0⟩ k
      simp only [classifyLoop, hn]
      rw [h2]
      simp only [List.mem_cons]
      constructor
      · rintro (hk | ⟨hk1, hk2⟩)
        · exact Or.inl hk
        · exact Or.inr ⟨Or.inr hk1, hk2⟩
      · rintro (hk | ⟨(rfl | hk1), r, hk2⟩)
        · exact Or.inl hk
        · rw [hk2] at hn; cases hn
        · exact Or.inr ⟨hk1, r, hk2⟩

theorem classifyLoop_failed (run : String → Except String DetectionResult)
    (names : List String) : ∀ (st : ClassifyState) (k : String),
    dictLookup (classifyLoop run names st).failed k =
      (match run k with
       | .ok _ => dictLookup st.failed k
       | .error m => if k ∈ names then some m else dictLookup st.failed k) := by
  induction names with
  | nil =>
    intro st k
    cases hk : run k <;> simp [classifyLoop]
  | cons n rest ih =>
    intro st k
    cases hn : run n with
    | ok r0 =>
      have h2 := ih ⟨dictInsert st.results n r0, setInsert st.succ n, st.failed⟩ k
      simp only [classifyLoop, hn]
      rw [h2]
      cases hk : run k with
      | ok r => rfl
      | error m =>
        by_cases hkn : k = n
        · subst hkn; rw [hk] at hn; cases hn
        · simp [hkn]
    | error m0 =>
      have h2 := ih ⟨st.results, st.succ, dictInsert st.failed n m0⟩ k
      simp only [classifyLoop, hn]
      rw [h2]
      cases hk : run k with
      | ok r =>
        by_cases hkn : k = n
        · subst hkn; rw [hk] at hn; cases hn
        · simp [dictLookup_dictInsert, Ne.symm hkn]
      | error m =>
        by_cases hkr : k ∈ rest
        · simp [hkr]
        · by_cases hkn : k = n
          · subst hkn
            rw [hn] at hk
            injection hk with hm
            subst hm
            simp [hkr, dictLookup_dictInsert]
          · simp [hkr, hkn, dictLookup_dictInsert, Ne.symm hkn]

/-- Example per-detector behaviour used by concrete witnesses: the name
`valid` resolves and runs the lease-header detector, any other name raises
(as `factory.create_detector` does for unknown names). -/
def runEx (n : String) (s : String) : Except String DetectionResult :=
  if n = "valid" then .ok (leaseDetect (some s)) else .error ("Unknown detector " ++ n)

/-- C1: for every non-blank text and non-empty requested name list,
`classify_with_detectors` returns a `ClassificationResult` whose
`detector_results` keys all lie in the requested names, whose
`successful_detectors` and `failed_detectors` keys each lie in the
requested names and are disjoint, and in which every requested name lies
in exactly one of `successful_detectors` and `failed_detectors` — so
their disjoint union equals the set of requested names. -/
theorem classify_with_detectors_invariants
    (run : String → String → Except String DetectionResult)
    (text : Option String) (names : List String)
    (htext : pyBlank text = false) (hnames : names ≠ []) :
    ∃ cr, classify_with_detectors run text names = .ok cr ∧
      (∀ k, (dictLookup cr.detector_results k).isSome → k ∈ names) ∧
      (∀ k, k ∈ cr.successful_detectors → k ∈ names) ∧
      (∀ k, (dictLookup cr.failed_detectors k).isSome → k ∈ names) ∧
      (∀ k, k ∈ cr.successful_detectors → dictLookup cr.failed_detectors k = none) ∧
      (∀ k, k ∈ names →
        ((k ∈ cr.successful_detectors ∧ dictLookup cr.failed_detectors k = none) ∨
         (k ∉ cr.successful_detectors ∧ (dictLookup cr.failed_detectors k).isSome))) := by
  unfold classify_with_detectors
  rw [htext]
  simp only [Bool.false_eq_true, if_false, if_neg hnames]
  refine ⟨_, rfl, ?_, ?_, ?_, ?_, ?_⟩
  · intro k hk
    rw [classifyLoop_results] at hk
    cases hrk : run k (text.getD "") <;> simp [hrk, dictLookup] at hk
    · by_cases hm : k ∈ names
      · exact hm
      · simp [hm] at hk
  · intro k hk
    rw [classifyLoop_succ] at hk
    rcases hk with hc | ⟨hmem, -⟩
    · simp at hc
    · exact hmem
  · intro k hk
    rw [classifyLoop_failed] at hk
    cases hrk : run k (text.getD "") <;> simp [hrk, dictLookup] at hk
    · by_cases hm : k ∈ names
      · exact hm
      · simp [hm] at hk
  · intro k hk
    rw [classifyLoop_succ] at hk
    simp [dictLookup] at hk
    obtain ⟨_, r, hr⟩ := hk
    rw [classifyLoop_failed, hr]
    rfl
  · intro k hk
    cases hrk : run k (text.getD "") with
    | ok r =>
      left
      constructor
      · rw [classifyLoop_succ]
        exact Or.inr ⟨hk, r, hrk⟩
      · rw [classifyLoop_failed, hrk]
        rfl
    | error m =>
      right
      constructor
      · rw [classifyLoop_succ]
        rintro (hc | ⟨-, r, hr⟩)
        · simp at hc
        · rw [hr] at hrk; cases hrk
      · rw [classifyLoop_failed, hrk]
        simp [hk]

/-- Witness for C1 at a concrete run function, text and name list. -/
theorem classify_with_detectors_invariants_witness :
    pyBlank (some "LEASE doc") = false ∧ (["valid", "unknown"] : List String) ≠ [] ∧
    (∃ cr, classify_with_detectors runEx (some "LEASE doc") ["valid", "unknown"] = .ok cr ∧
      (∀ k, (dictLookup cr.detector_results k).isSome → k ∈ ["valid", "unknown"]) ∧
      (∀ k, k ∈ cr.successful_detectors → k ∈ ["valid", "unknown"]) ∧
      (∀ k, (dictLookup cr.failed_detectors k).isSome → k ∈ ["valid", "unknown"]) ∧
      (∀ k, k ∈ cr.successful_detectors → dictLookup cr.failed_detectors k = none) ∧
      (∀ k, k ∈ ["valid", "unknown"] →
        ((k ∈ cr.successful_detectors ∧ dictLookup cr.failed_detectors k = none) ∨
         (k ∉ cr.successful_detectors ∧ (dictLookup cr.failed_detectors k).isSome)))) :=
  ⟨by decide, by decide,
   classify_with_detectors_invariants runEx (some "LEASE doc") ["valid", "unknown"]
     (by decide) (by decide)⟩

/-- C2: `classify_with_detectors` raises `ClassifierError` exactly when
the text is absent, empty or whitespace-only or the requested name list is
empty; whenever it returns normally, every requested name whose detector
resolution-and-detection returned a result is recorded in
`detector_results` and `successful_detectors`, and every requested name
whose resolution or detection raised is recorded in `failed_detectors`
with the exception message — no detector failure aborts the batch. -/
theorem classify_with_detectors_error_iff
    (run : String → String → Except String DetectionResult)
    (text : Option String) (names : List String) :
    ((∃ e, classify_with_detectors run text names = .error e) ↔
      (pyBlank text = true ∨ names = [])) ∧
    (∀ s, text = some s → ∀ cr, classify_with_detectors run text names = .ok cr →
      ∀ k, k ∈ names →
        (∀ r, run k s = .ok r →
          dictLookup cr.detector_results k = some r ∧ k ∈ cr.successful_detectors) ∧
        (∀ m, run k s = .error m →
          dictLookup cr.failed_detectors k = some m ∧ k ∉ cr.successful_detectors)) := by
  constructor
  · by_cases hb : pyBlank text = true
    · simp [classify_with_detectors, hb]
    · by_cases hn : names = []
      · simp [classify_with_detectors, hb, hn]
      · simp [classify_with_detectors, hb, hn]
  · intro s hs cr hcr k hk
    subst hs
    by_cases hb : pyBlank (some s) = true
    · simp [classify_with_detectors, hb] at hcr
    · by_cases hn : names = []
      · simp [classify_with_detectors, hb, hn] at hcr
      · simp only [classify_with_detectors, hb, if_false, if_neg hn, Bool.false_eq_true,
          Except.ok.injEq] at hcr
        subst hcr
        constructor
        · intro r hr
          constructor
          · rw [classifyLoop_results]
            simp [Option.getD] at hr ⊢
            rw [hr]
            simp [hk]
          · rw [classifyLoop_succ]
            exact Or.inr ⟨hk, r, hr⟩
        · intro m hm
          constructor
          · rw [classifyLoop_failed]
            simp [Option.getD] at hm ⊢
            rw [hm]
            simp [hk]
          · rw [classifyLoop_succ]
            rintro (hc | ⟨-, r, hr⟩)
            · simp at hc
            · rw [Option.getD_some] at hr
              rw [hr] at hm; cases hm

/-- Witness for C2: the spec scenario `classifyWith(text, ["unknown"])`,
whose single unknown name is recorded in `failed_detectors` while the call
returns normally. -/
theorem classify_with_detectors_error_iff_witness :
    ((∃ e, classify_with_detectors runEx (some "some text") ["unknown"] = .error e) ↔
      (pyBlank (some "some text") = true ∨ (["unknown"] : List String) = [])) ∧
    (dictLookup (ClassificationResult.mk 9
        [] [] [("unknown", "Unknown detector unknown")]).failed_detectors "unknown" =
        some "Unknown detector unknown" ∧
      "unknown" ∉ (ClassificationResult.mk 9
        [] [] [("unknown", "Unknown detector unknown")]).successful_detectors) :=
  ⟨(classify_with_detectors_error_iff runEx (some "some text") ["unknown"]).1,
   ((classify_with_detectors_error_iff runEx (some "some text") ["unknown"]).2
      "some text" rfl
      (ClassificationResult.mk 9 [] [] [("unknown", "Unknown detector unknown")])
      (by rfl) "unknown" (by decide)).2 "Unknown detector unknown" (by rfl)⟩

theorem jurisdictionDetect_eq_CA (s : String)
    (h : categoryMatches caPatterns s.toList = true) :
    jurisdictionDetect (some s) = ⟨true, some "CA"⟩ := by
  by_cases hs : s = ""
  · subst hs
    exact absurd h (by decide)
  · simp only [jurisdictionDetect, pyFalsyText, jurisdictionPatterns]
    rw [if_neg (by simpa using hs)]
    rw [List.find?_cons_of_pos _ (by simpa using h)]

theorem jurisdictionDetect_eq_MA (s : String)
    (hca : categoryMatches caPatterns s.toList = false)
    (hma : categoryMatches maPatterns s.toList = true) :
    jurisdictionDetect (some s) = ⟨true, some "MA"⟩ := by
  by_cases hs : s = ""
  · subst hs
    exact absurd hma (by decide)
  · simp only [jurisdictionDetect, pyFalsyText, jurisdictionPatterns]
    rw [if_neg (by simpa using hs)]
    rw [List.find?_cons_of_neg _ (by simpa using hca)]
    rw [List.find?_cons_of_pos _ (by simpa using hma)]

/-- C5: when the text matches patterns of more than one jurisdiction
category, `JurisdictionDetector.detect` returns the first category in
declaration order (CA, then MA, then NY) regardless of where the matches
occur in the text; in particular any text in which the words
`California` and `Massachusetts` both occur yields `detected=true` with
value `"CA"`. -/
theorem jurisdiction_first_category_wins (s : String) :
    (categoryMatches caPatterns s.toList = true →
      categoryMatches maPatterns s.toList = true →
      jurisdictionDetect (some s) = ⟨true, some "CA"⟩) ∧
    (categoryMatches caPatterns s.toList = true →
      categoryMatches nyPatterns s.toList = true →
      jurisdictionDetect (some s) = ⟨true, some "CA"⟩) ∧
    (categoryMatches caPatterns s.toList = false →
      categoryMatches maPatterns s.toList = true →
      categoryMatches nyPatterns s.toList = true →
      jurisdictionDetect (some s) = ⟨true, some "MA"⟩) ∧
    (reSearch ⟨["California"], true⟩ s.toList = true →
      reSearch ⟨["Massachusetts"], true⟩ s.toList = true →
      jurisdictionDetect (some s) = ⟨true, some "CA"⟩) := by
  refine ⟨fun h _ => jurisdictionDetect_eq_CA s h,
          fun h _ => jurisdictionDetect_eq_CA s h,
          fun hca hma _ => jurisdictionDetect_eq_MA s hca hma,
          fun hcal _ => jurisdictionDetect_eq_CA s ?_⟩
  simp only [categoryMatches, List.any_eq_true]
  exact ⟨⟨["California"], true⟩, by decide, hcal⟩

/-- Witness for C5: a text in which `Massachusetts` occurs before
`California` still classifies as `"CA"`, and a text matching both MA and
NY but not CA classifies as `"MA"`. -/
theorem jurisdiction_first_category_wins_witness :
    jurisdictionDetect (some "Commonwealth of Massachusetts, then California") =
      ⟨true, some "CA"⟩ ∧
    jurisdictionDetect (some "Massachusetts and New York") = ⟨true, some "MA"⟩ :=
  ⟨(jurisdiction_first_category_wins
      "Commonwealth of Massachusetts, then California").2.2.2 (by decide) (by decide),
   (jurisdiction_first_category_wins
      "Massachusetts and New York").2.2.1 (by decide) (by decide) (by decide)⟩

theorem leaseDetect_eq (s : String) :
    leaseDetect (some s) =
      if leasePatterns.any (fun p => reSearch p (s.toList.take 500)) then
        ⟨true, some "lease"⟩
      else ⟨false, none⟩ := by
  by_cases hs : s = ""
  · subst hs
    rfl
  · simp only [leaseDetect, pyFalsyText]
    rw [if_neg (by simpa using hs)]
    rfl

/-- C6: `LeaseHeaderDetector.detect` reports a detection exactly when one
of its patterns matches within the first 500 characters of the text, in
which case the value is the fixed label `"lease"`; consequently the result
depends only on the first 500 characters — two texts agreeing there get
identical results, so a keyword occurring only after the first 500
characters is not seen. -/
theorem lease_header_window (s t : String)
    (hst : s.toList.take 500 = t.toList.take 500) :
    ((leaseDetect (some s)).detected = true ↔
      leasePatterns.any (fun p => reSearch p (s.toList.take 500)) = true) ∧
    ((leaseDetect (some s)).detected = true → (leaseDetect (some s)).value = some "lease") ∧
    leaseDetect (some s) = leaseDetect (some t) := by
  refine ⟨?_, ?_, ?_⟩
  · rw [leaseDetect_eq]
    by_cases h : leasePatterns.any (fun p => reSearch p (s.toList.take 500)) = true
    · rw [if_pos h]
      simpa using h
    · rw [if_neg h]
      simpa using h
  · rw [leaseDetect_eq]
    by_cases h : leasePatterns.any (fun p => reSearch p (s.toList.take 500)) = true
    · rw [if_pos h]
      simp
    · rw [if_neg h]
      simp
  · rw [leaseDetect_eq, leaseDetect_eq, hst]

/-- Witness for C6: appending `" LEASE"` after a 500-character filler
changes nothing — the detector result equals the result on the filler
alone, which is negative. -/
theorem lease_header_window_witness :
    (String.mk (List.replicate 500 'a') ++ " LEASE").toList.take 500 =
      (String.mk (List.replicate 500 'a')).toList.take 500 ∧
    leaseDetect (some (String.mk (List.replicate 500 'a') ++ " LEASE")) =
      leaseDetect (some (String.mk (List.replicate 500 'a'))) ∧
    leaseDetect (some (String.mk (List.replicate 500 'a'))) = ⟨false, none⟩ :=
  ⟨by decide,
   (lease_header_window (String.mk (List.replicate 500 'a') ++ " LEASE")
      (String.mk (List.replicate 500 'a')) (by decide)).2.2,
   by decide⟩

/-- C9: both detector variants are total Lean functions (no exception
channel exists in their embedding), and on absent (`None`) or empty text
each returns `detected=false` with no value. -/
theorem detect_total_on_empty :
    leaseDetect none = ⟨false, none⟩ ∧ leaseDetect (some "") = ⟨false, none⟩ ∧
    jurisdictionDetect none = ⟨false, none⟩ ∧
    jurisdictionDetect (some "") = ⟨false, none⟩ := by
  refine ⟨rfl, by decide, rfl, by decide⟩

/-- A configuration whose descriptor list repeats the same detector name
twice, both entries referencing an importable class. -/
def dupConfigs : List DetectorConfig :=
  [⟨"dup", "classifier_router.core.detector.lease_header.LeaseHeaderDetector",
    "first entry", "docType"⟩,
   ⟨"dup", "classifier_router.core.detector.lease_header.LeaseHeaderDetector",
    "second entry", "docType"⟩]

/-- An import environment in which every class path resolves (to the
lease-header class). -/
def envAllLease : ImportEnv := fun _ => .ok leaseHeaderClass

/-- Counterexample to C3: loading a configuration with two descriptors of
the same name does not raise `ConfigError` — it succeeds, the second
entry silently overwriting the first in the class dictionary. -/
theorem duplicate_names_accepted :
    loadDetectorClasses envAllLease dupConfigs [] = .ok [("dup", leaseHeaderClass)] :=
  rfl

theorem loadDetectorClasses_ok_iff (env : ImportEnv) :
    ∀ (configs : List DetectorConfig) (acc : List (String × DetectorClass)),
    ((∃ d, loadDetectorClasses env configs acc = .ok d) ↔
      ∀ c ∈ configs, ∃ cls, env c.class_path = .ok cls) := by
  intro configs
  induction configs with
  | nil => intro acc; simp [loadDetectorClasses]
  | cons c rest ih =>
    intro acc
    cases hc : env c.class_path with
    | ok cls =>
      simp only [loadDetectorClasses, hc]
      rw [ih]
      constructor
      · intro h c' hc'
        rcases List.mem_cons.mp hc' with rfl | hmem
        · exact ⟨cls, hc⟩
        · exact h c' hmem
      · intro h c' hc'
        exact h c' (List.mem_cons.mpr (Or.inr hc'))
    | error e =>
      simp only [loadDetectorClasses, hc]
      constructor
      · rintro ⟨d, hd⟩
        cases hd
      · intro h
        obtain ⟨cls, hcls⟩ := h c (List.mem_cons_self c rest)
        rw [hc] at hcls
        cases hcls

/-- C3 amended: registry load never fails because of duplicate detector
names — construction succeeds exactly when every descriptor's
`implementationRef` resolves, duplicates included (the class dictionary
then keeps the last entry for a duplicated name); `ConfigError` arises
only from a missing or malformed source or an unresolvable or
non-conforming `implementationRef`. -/
theorem load_ok_iff_all_resolvable (env : ImportEnv) (configs : List DetectorConfig) :
    (∃ d, loadDetectorClasses env configs [] = .ok d) ↔
      ∀ c ∈ configs, ∃ cls, env c.class_path = .ok cls :=
  loadDetectorClasses_ok_iff env configs []

/-- A single-descriptor configuration with a unique name `foo` whose
class path references the lease-header class. -/
def mismatchedConfigs : List DetectorConfig :=
  [⟨"foo", "classifier_router.core.detector.lease_header.LeaseHeaderDetector",
    "lease detector registered under a different name", "docType"⟩]

/-- An import environment resolving exactly the two class paths of the
repository's detectors. -/
def shippedEnv : ImportEnv := fun p =>
  if p = "classifier_router.core.detector.lease_header.LeaseHeaderDetector" then
    .ok leaseHeaderClass
  else if p = "classifier_router.detector.jurisdiction.JurisdictionDetector" then
    .ok jurisdictionClass
  else .error ("Cannot import module from " ++ p)

/-- Counterexample to C4: with the unique-name descriptor set
`mismatchedConfigs`, the registry resolves `foo` to a `LeaseHeaderDetector`
instance whose `name` property is the class-determined string
`lease_header_detector`, not the descriptor name `foo` — the factory never
checks that the instance name matches the descriptor name. -/
theorem resolve_name_mismatch :
    (mismatchedConfigs.map DetectorConfig.name).Nodup ∧
    ∃ d inst, loadDetectorClasses shippedEnv mismatchedConfigs [] = .ok d ∧
      create_detector d "foo" = .ok inst ∧ inst.instName ≠ "foo" :=
  ⟨by decide, _, leaseHeaderClass, rfl, rfl, by decide⟩

theorem loadDetectorClasses_instName (env : ImportEnv) :
    ∀ (configs : List DetectorConfig) (acc : List (String × DetectorClass)),
    (∀ c ∈ configs, ∃ cls, env c.class_path = .ok cls ∧ cls.instName = c.name) →
    (∀ k v, dictLookup acc k = some v → v.instName = k) →
    ∃ d, loadDetectorClasses env configs acc = .ok d ∧
      (∀ k v, dictLookup d k = some v → v.instName = k) ∧
      (∀ k, (dictLookup acc k).isSome → (dictLookup d k).isSome) ∧
      (∀ c ∈ configs, (dictLookup d c.name).isSome) := by
  intro configs
  induction configs with
  | nil =>
    intro acc _ hacc
    exact ⟨acc, rfl, hacc, fun _ h => h, by simp⟩
  | cons c rest ih =>
    intro acc hres hacc
    obtain ⟨cls, hok, hname⟩ := hres c (List.mem_cons_self c rest)
    have hres' : ∀ c' ∈ rest, ∃ cls', env c'.class_path = .ok cls' ∧ cls'.instName = c'.name :=
      fun c' hc' => hres c' (List.mem_cons.mpr (Or.inr hc'))
    have hacc' : ∀ k v, dictLookup (dictInsert acc c.name cls) k = some v → v.instName = k := by
      intro k v hv
      rw [dictLookup_dictInsert] at hv
      by_cases hk : c.name = k
      · rw [if_pos hk] at hv
        injection hv with hv
        rw [← hv, hname, hk]
      · rw [if_neg hk] at hv
        exact hacc k v hv
    obtain ⟨d, hd, hPd, hmono, hpres⟩ := ih (dictInsert acc c.name cls) hres' hacc'
    refine ⟨d, ?_, hPd, ?_, ?_⟩
    · simp only [loadDetectorClasses, hok]
      exact hd
    · intro k hk
      apply hmono
      rw [dictLookup_dictInsert]
      by_cases h : c.name = k
      · rw [if_pos h]; rfl
      · rw [if_neg h]; exact hk
    · intro c' hc'
      rcases List.mem_cons.mp hc' with rfl | hmem
      · apply hmono
        rw [dictLookup_dictInsert, if_pos rfl]
        rfl
      · exact hpres c' hmem

/-- C4 amended: for every descriptor set with unique names in which each
descriptor's `implementationRef` resolves to a class whose fixed instance
name equals the descriptor's name (as holds for the repository's shipped
configuration wiring `lease_header_detector` and `jurisdiction_detector`
to their canonical classes), the registry loads and
`resolve(name).name == name` for every descriptor. -/
theorem resolve_name_matches (env : ImportEnv) (configs : List DetectorConfig)
    (_hnodup : (configs.map DetectorConfig.name).Nodup)
    (hres : ∀ c ∈ configs, ∃ cls, env c.class_path = .ok cls ∧ cls.instName = c.name) :
    ∃ d, loadDetectorClasses env configs [] = .ok d ∧
      ∀ c ∈ configs, ∃ inst, create_detector d c.name = .ok inst ∧
        inst.instName = c.name := by
  obtain ⟨d, hd, hPd, -, hpres⟩ :=
    loadDetectorClasses_instName env configs [] hres (by intro k v hv; cases hv)
  refine ⟨d, hd, ?_⟩
  intro c hc
  have hs := hpres c hc
  cases hl : dictLookup d c.name with
  | none => rw [hl] at hs; cases hs
  | some cls =>
    refine ⟨cls, ?_, hPd c.name cls hl⟩
    simp only [create_detector, hl]

/-- The repository's shipped descriptor set
(`config/detector_config.json` as exercised by the test suite): two
uniquely named detectors whose names coincide with their classes' fixed
instance names. -/
def shippedConfigs : List DetectorConfig :=
  [⟨"lease_header_detector",
    "classifier_router.core.detector.lease_header.LeaseHeaderDetector",
    "Detects lease documents based on header patterns", "docType"⟩,
   ⟨"jurisdiction_detector",
    "classifier_router.detector.jurisdiction.JurisdictionDetector",
    "Detects jurisdiction codes based on state references", "jurisdiction"⟩]

/-- Witness for the amended C4 at the shipped configuration. -/
theorem resolve_name_matches_witness :
    (shippedConfigs.map DetectorConfig.name).Nodup ∧
    ∃ d, loadDetectorClasses shippedEnv shippedConfigs [] = .ok d ∧
      ∀ c ∈ shippedConfigs, ∃ inst, create_detector d c.name = .ok inst ∧
        inst.instName = c.name :=
  ⟨by decide,
   resolve_name_matches shippedEnv shippedConfigs (by decide)
     (by
       intro c hc
       simp only [shippedConfigs, List.mem_cons, List.mem_singleton] at hc
       rcases hc with rfl | rfl | h
       · exact ⟨leaseHeaderClass, rfl, rfl⟩
       · exact ⟨jurisdictionClass, rfl, rfl⟩
       · cases h)⟩

/-- The last detector name in the mapping whose output type is `t` —
the entry whose write survives the dictionary overwrites of
`get_output_by_type`. -/
def lastNameFor : List (String × String) → String → Option String
  | [], _ => none
  | p :: rest, t =>
    match lastNameFor rest t with
    | some n => some n
    | none => if p.2 = t then some p.1 else none

theorem getOutputByType_foldl (cr : ClassificationResult) :
    ∀ (cfgs : List (String × String)) (acc : List (String × Option String)) (t : String),
    dictLookup (cfgs.foldl (fun acc p => dictInsert acc p.2 (fieldValue cr p.1)) acc) t =
      (match lastNameFor cfgs t with
       | some n => some (fieldValue cr n)
       | none => dictLookup acc t) := by
  intro cfgs
  induction cfgs with
  | nil => intro acc t; rfl
  | cons p rest ih =>
    intro acc t
    simp only [List.foldl_cons, lastNameFor]
    rw [ih]
    cases hrest : lastNameFor rest t with
    | some n => rfl
    | none =>
      rw [dictLookup_dictInsert]
      by_cases ht : p.2 = t
      · rw [if_pos ht, if_pos ht]
      · rw [if_neg ht, if_neg ht]

/-- Lookup of `get_output_by_type` for an output type present in the
mapping resolves to the value computed for the last mapping entry with
that type. -/
theorem getOutputByType_lookup (cr : ClassificationResult)
    (cfgs : List (String × String)) (t n : String)
    (h : lastNameFor cfgs t = some n) :
    dictLookup (getOutputByType cr cfgs) t = some (fieldValue cr n) := by
  rw [getOutputByType, getOutputByType_foldl, h]

/-- C10: when two detector names in the cached mapping share the same
output type, `get_output_by_type` keeps only the value computed for the
last such name in the mapping's iteration order — so a later entry that
failed or detected nothing overwrites an earlier successful detection of
the same output type with `None`. -/
theorem get_output_by_type_last_wins (cr : ClassificationResult)
    (cfgs : List (String × String)) (t n : String)
    (h : lastNameFor cfgs t = some n) :
    dictLookup (getOutputByType cr cfgs) t = some (fieldValue cr n) := by
  rw [getOutputByType, getOutputByType_foldl, h]

/-- A classification outcome in which `detA` succeeded with a positive
lease detection and `detB` failed. -/
def crOverwrite : ClassificationResult :=
  ⟨40, [("detA", ⟨true, some "lease"⟩)], ["detA"], [("detB", "boom")]⟩

/-- A cached mapping in which both detector names share the output type
`docType`. -/
def cfgOverwrite : List (String × String) :=
  [("detA", "docType"), ("detB", "docType")]

/-- Witness for C10: in `cfgOverwrite` the last name for `docType` is the
failed `detB`, so the `docType` field is overwritten to `None` even though
`detA` succeeded with value `"lease"`. -/
theorem get_output_by_type_last_wins_witness :
    lastNameFor cfgOverwrite "docType" = some "detB" ∧
    dictLookup (getOutputByType crOverwrite cfgOverwrite) "docType" =
      some (fieldValue crOverwrite "detB") ∧
    fieldValue crOverwrite "detB" = none ∧
    fieldValue crOverwrite "detA" = some "lease" :=
  ⟨by decide,
   get_output_by_type_last_wins crOverwrite cfgOverwrite "docType" "detB" (by decide),
   by decide, by decide⟩

/-- Counterexample to C7: in a mapping where `detA` and `detB` share the
output type `docType`, `detA` is successful with `detected=true` and the
non-empty value `"lease"`, yet the mapped output for `docType` is `None`
(the later failed `detB` overwrote it) — the claimed biconditional fails
for `detA`. -/
theorem output_mapping_iff_counterexample :
    "detA" ∈ crOverwrite.successful_detectors ∧
    dictLookup crOverwrite.detector_results "detA" =
      some ⟨true, some "lease"⟩ ∧
    ("detA", "docType") ∈ cfgOverwrite ∧
    dictLookup (getOutputByType crOverwrite cfgOverwrite) "docType" = some none := by
  refine ⟨by decide, by decide, by decide, by decide⟩

theorem lastNameFor_eq_none (cfgs : List (String × String)) (t : String)
    (h : t ∉ cfgs.map Prod.snd) : lastNameFor cfgs t = none := by
  induction cfgs with
  | nil => rfl
  | cons p rest ih =>
    simp only [List.map_cons, List.mem_cons] at h
    push_neg at h
    simp only [lastNameFor, ih h.2]
    rw [if_neg (fun hp => h.1 hp.symm)]

theorem lastNameFor_of_nodup (cfgs : List (String × String))
    (hnd : (cfgs.map Prod.snd).Nodup) :
    ∀ p ∈ cfgs, lastNameFor cfgs p.2 = some p.1 := by
  induction cfgs with
  | nil => intro p hp; cases hp
  | cons q rest ih =>
    rw [List.map_cons, List.nodup_cons] at hnd
    intro p hp
    rcases List.mem_cons.mp hp with rfl | hmem
    · simp [lastNameFor, lastNameFor_eq_none rest p.2 hnd.1]
    · simp only [lastNameFor, ih hnd.2 p hmem]

/-- C7 amended: when the output types in the cached mapping are pairwise
distinct (as in the shipped configuration, `docType` and `jurisdiction`),
the mapped output assigns to each entry's output type the detector's
value iff that detector name is in `successful_detectors` and its stored
result has `detected=true` with a non-empty value, and `None` otherwise —
in particular a detector recorded in `failed_detectors` (disjoint from the
successes) always maps its output type to `None`.  Without the
distinctness precondition a later entry sharing the output type can
overwrite the field. -/
theorem output_mapping_iff (cr : ClassificationResult)
    (cfgs : List (String × String))
    (hnd : (cfgs.map Prod.snd).Nodup)
    (hdisj : ∀ k, k ∈ cr.successful_detectors → dictLookup cr.failed_detectors k = none) :
    ∀ p ∈ cfgs,
      (∀ r, dictLookup cr.detector_results p.1 = some r →
        p.1 ∈ cr.successful_detectors → r.detected = true → truthyValue r.value = true →
        dictLookup (getOutputByType cr cfgs) p.2 = some r.value) ∧
      (p.1 ∉ cr.successful_detectors →
        dictLookup (getOutputByType cr cfgs) p.2 = some none) ∧
      ((dictLookup cr.failed_detectors p.1).isSome →
        dictLookup (getOutputByType cr cfgs) p.2 = some none) ∧
      (∀ r, dictLookup cr.detector_results p.1 = some r →
        ¬(r.detected = true ∧ truthyValue r.value = true) →
        dictLookup (getOutputByType cr cfgs) p.2 = some none) ∧
      (dictLookup cr.detector_results p.1 = none →
        dictLookup (getOutputByType cr cfgs) p.2 = some none) := by
  intro p hp
  have hlast := lastNameFor_of_nodup cfgs hnd p hp
  have hlook := getOutputByType_lookup cr cfgs p.2 p.1 hlast
  refine ⟨?_, ?_, ?_, ?_, ?_⟩
  · intro r hr hsucc hdet hval
    rw [hlook]
    simp [fieldValue, if_pos hsucc, hr, hdet, hval]
  · intro hsucc
    rw [hlook]
    simp only [fieldValue, if_neg hsucc]
  · intro hfail
    have hsucc : p.1 ∉ cr.successful_detectors := by
      intro hmem
      rw [hdisj p.1 hmem] at hfail
      cases hfail
    rw [hlook]
    simp only [fieldValue, if_neg hsucc]
  · intro r hr hnot
    rw [hlook]
    by_cases hsucc : p.1 ∈ cr.successful_detectors
    · simp only [fieldValue, if_pos hsucc, hr]
      have : (r.detected && truthyValue r.value) = false := by
        cases hd : r.detected with
        | false => simp
        | true =>
          cases hv : truthyValue r.value with
          | false => simp
          | true => exact absurd ⟨hd, hv⟩ hnot
      rw [this]
      simp
    · simp only [fieldValue, if_neg hsucc]
  · intro hr
    rw [hlook]
    by_cases hsucc : p.1 ∈ cr.successful_detectors
    · simp only [fieldValue, if_pos hsucc, hr]
    · simp only [fieldValue, if_neg hsucc]

/-- The cached mapping of the spec's output-mapping scenario: two
detectors with distinct output types. -/
def cfgSpec : List (String × String) :=
  [("detA", "docType"), ("detB", "jurisdiction")]

/-- Witness for the amended C7 at the spec's scenario: `detA` succeeded
with `detected=true, value="lease"` and `detB` failed, giving
`docType="lease"` and `jurisdiction=None`. -/
theorem output_mapping_iff_witness :
    dictLookup (getOutputByType crOverwrite cfgSpec) "docType" = some (some "lease") ∧
    dictLookup (getOutputByType crOverwrite cfgSpec) "jurisdiction" = some none :=
  ⟨(output_mapping_iff crOverwrite cfgSpec (by decide)
      (by
        intro k hk
        rw [show crOverwrite.successful_detectors = ["detA"] from rfl,
          List.mem_singleton] at hk
        subst hk
        rfl)
      ("detA", "docType") (by decide)).1 ⟨true, some "lease"⟩ rfl (by decide) rfl rfl,
   ((output_mapping_iff crOverwrite cfgSpec (by decide)
      (by
        intro k hk
        rw [show crOverwrite.successful_detectors = ["detA"] from rfl,
          List.mem_singleton] at hk
        subst hk
        rfl)
      ("detB", "jurisdiction") (by decide)).2.2.1 (by decide))⟩

/-- The trivial router behaviour used by the C8 witness: classification
always returns an empty outcome. -/
def classifyOk (s : String) : Except String ClassificationResult :=
  .ok ⟨s.length, [], [], []⟩

/-- C8: `process_message` fails with `ClassifierError` for every decoded
inbound envelope whose text length strictly exceeds the configured
maximum, and when the length equals the maximum it never fails for that
reason. -/
theorem process_message_length_guard
    (classify : String → Except String ClassificationResult)
    (mapping : List (String × String)) (maxLen : Nat)
    (input : TextExtractionMessage) :
    (input.text.length > maxLen →
      process_message classify mapping maxLen input =
        .error (.textTooLong input.text.length maxLen)) ∧
    (input.text.length = maxLen →
      ∀ n m, process_message classify mapping maxLen input ≠
        .error (.textTooLong n m)) := by
  constructor
  · intro h
    simp only [process_message, if_pos h]
  · intro h n m
    have hng : ¬(input.text.length > maxLen) := by omega
    simp only [process_message, if_neg hng]
    cases hc : classify input.text with
    | ok cr => simp
    | error msg => simp

/-- Witness for C8: a three-character text is rejected with the length
error against a maximum of 2, and passes the length guard against a
maximum of 3. -/
theorem process_message_length_guard_witness :
    ("abc".length > 2 ∧
      process_message classifyOk [] 2 ⟨"d1", "abc"⟩ = .error (.textTooLong 3 2)) ∧
    ("abc".length = 3 ∧
      ∀ n m, process_message classifyOk [] 3 ⟨"d1", "abc"⟩ ≠
        .error (.textTooLong n m)) :=
  ⟨⟨by decide,
    (process_message_length_guard classifyOk [] 2 ⟨"d1", "abc"⟩).1 (by decide)⟩,
   ⟨by decide,
    (process_message_length_guard classifyOk [] 3 ⟨"d1", "abc"⟩).2 (by decide)⟩⟩

end ClassifierRouter
